import Mathlib

/-!
Verification development for the Manager orchestration layer of the
madrona escape-room batch simulator (src/mgr.cpp, src/sim.hpp).

The definitions below are a shallow embedding of the Manager's code:
the tensor accessor functions, the per-world control-buffer operations,
the constructor priming sequence, the backend initialization paths, the
physics-asset post-processing, and the GPU rollout copy pipeline.
Machine floats that the code never computes with (inertia values,
friction coefficients) are modelled as rationals; the claims proved
about them concern only which fields are written, never float
arithmetic.
-/

namespace MadEscape

/-- Element types of exported tensors, as used by mgr.cpp through the
engine's tensor interface (an external collaborator): the accessors in
mgr.cpp use Int32, Float32 and UInt8.  Byte widths follow the type
names. -/
inductive ElementType where
  | UInt8
  | Int8
  | Int16
  | Int32
  | Float16
  | Float32
deriving DecidableEq, Repr

def ElementType.numBytesPerItem : ElementType → Nat
  | .UInt8 => 1
  | .Int8 => 1
  | .Int16 => 2
  | .Int32 => 4
  | .Float16 => 2
  | .Float32 => 4

/-- Export slots, from the ExportID enum in src/sim.hpp. -/
inductive ExportID where
  | Reset
  | Action
  | Reward
  | Done
  | SelfObservation
  | AgentID
  | PartnerObservations
  | RoomEntityObservations
  | DoorObservation
  | Lidar
  | StepsRemaining
  | Checkpoint
  | CheckpointReset
  | CheckpointSave
deriving DecidableEq, Repr

/-- A tensor as returned by a Manager accessor: the export slot it
views, its declared element type and its declared dimension list
(the memory handle itself is out of scope). -/
structure TensorSpec where
  slot : ExportID
  ty : ElementType
  dims : List Nat
deriving DecidableEq, Repr

/-! ### Manager tensor accessors (mgr.cpp lines 537-663)

Each accessor is a pure function of the immutable Config's world count
(and the compile-time agent count and sizes), so its result is the same
on every call for the Manager's lifetime.  `numAgents`,
`maxObservationsPerAgent` and `numLidarSamples` live in consts.hpp and
`sizeof(Checkpoint)`, `sizeof(SelfObservation)` in types.hpp, which are
not part of the sources here; they enter as parameters, exactly as the
accessor bodies use them symbolically. -/

def checkpointResetTensor (numWorlds : Nat) : TensorSpec :=
  ⟨ExportID.CheckpointReset, ElementType.Int32, [numWorlds, 1]⟩

def checkpointTensor (numWorlds checkpointNumBytes : Nat) : TensorSpec :=
  ⟨ExportID.Checkpoint, ElementType.UInt8, [numWorlds, checkpointNumBytes]⟩

def resetTensor (numWorlds : Nat) : TensorSpec :=
  ⟨ExportID.Reset, ElementType.Int32, [numWorlds, 1]⟩

def actionTensor (numWorlds numAgents : Nat) : TensorSpec :=
  ⟨ExportID.Action, ElementType.Int32, [numWorlds * numAgents, 4]⟩

def rewardTensor (numWorlds numAgents : Nat) : TensorSpec :=
  ⟨ExportID.Reward, ElementType.Float32, [numWorlds * numAgents, 1]⟩

def doneTensor (numWorlds numAgents : Nat) : TensorSpec :=
  ⟨ExportID.Done, ElementType.Int32, [numWorlds * numAgents, 1]⟩

def selfObservationTensor (numWorlds numAgents selfObsFloats : Nat) : TensorSpec :=
  ⟨ExportID.SelfObservation, ElementType.Float32,
    [numWorlds * numAgents, selfObsFloats]⟩

def partnerObservationsTensor (numWorlds numAgents : Nat) : TensorSpec :=
  ⟨ExportID.PartnerObservations, ElementType.Float32,
    [numWorlds * numAgents, numAgents - 1, 3]⟩

def roomEntityObservationsTensor (numWorlds numAgents maxObsPerAgent : Nat) :
    TensorSpec :=
  ⟨ExportID.RoomEntityObservations, ElementType.Float32,
    [numWorlds * numAgents, maxObsPerAgent, 3]⟩

def doorObservationTensor (numWorlds numAgents : Nat) : TensorSpec :=
  ⟨ExportID.DoorObservation, ElementType.Float32,
    [numWorlds * numAgents, 1, 3]⟩

def lidarTensor (numWorlds numAgents numLidarSamples : Nat) : TensorSpec :=
  ⟨ExportID.Lidar, ElementType.Float32,
    [numWorlds * numAgents, numLidarSamples, 2]⟩

def stepsRemainingTensor (numWorlds numAgents : Nat) : TensorSpec :=
  ⟨ExportID.StepsRemaining, ElementType.Int32, [numWorlds * numAgents, 1]⟩

def agentIDTensor (numWorlds numAgents : Nat) : TensorSpec :=
  ⟨ExportID.AgentID, ElementType.Int32, [numWorlds * numAgents, 1]⟩

/-- All thirteen tensor accessors of the Manager, in source order
(mgr.cpp lines 537-663), applied to one configuration. -/
def managerTensors (numWorlds numAgents checkpointNumBytes selfObsFloats
    maxObsPerAgent numLidarSamples : Nat) : List TensorSpec :=
  [checkpointResetTensor numWorlds,
   checkpointTensor numWorlds checkpointNumBytes,
   resetTensor numWorlds,
   actionTensor numWorlds numAgents,
   rewardTensor numWorlds numAgents,
   doneTensor numWorlds numAgents,
   selfObservationTensor numWorlds numAgents selfObsFloats,
   partnerObservationsTensor numWorlds numAgents,
   roomEntityObservationsTensor numWorlds numAgents maxObsPerAgent,
   doorObservationTensor numWorlds numAgents,
   lidarTensor numWorlds numAgents numLidarSamples,
   stepsRemainingTensor numWorlds numAgents,
   agentIDTensor numWorlds numAgents]

/-! ### Per-world control buffers and the Manager's mutator API
(mgr.cpp lines 503-528 and 685-764)

The buffers exported by the backend are flat arrays: WorldReset,
CheckpointSave and CheckpointReset have one slot per world, the Action
buffer one slot per world-agent pair at flat index
`world * numAgents + agent`.  The CUDA path performs the identical
record write through a host-to-device memcpy; both branches are the
same single-slot update, which is what the state transition captures.
`step()` only invokes the backend's `run()`; it writes no control
buffer from the Manager side. -/

/-- Per-agent action record, from the Action component
(four discrete integer codes), as written by Manager::setAction. -/
structure Action where
  moveAmount : Int
  moveAngle : Int
  rotate : Int
  interact : Int
deriving DecidableEq, Repr

/-- The Manager-visible state: the four exported control buffers and a
counter of completed `run()` passes. -/
structure SimState where
  resetBuf : Nat → Int
  saveBuf : Nat → Int
  loadBuf : Nat → Int
  actionBuf : Nat → Action
  stepCount : Nat

/-- Manager::triggerReset (mgr.cpp 685): writes WorldReset { 1 } into
world `worldIdx`'s slot. -/
def triggerReset (worldIdx : Nat) (s : SimState) : SimState :=
  { s with resetBuf := fun i => if i = worldIdx then 1 else s.resetBuf i }

/-- Manager::setAction (mgr.cpp 703): writes the Action record at flat
index `worldIdx * numAgents + agentIdx`. -/
def setAction (numAgents : Nat) (worldIdx agentIdx : Nat)
    (moveAmount moveAngle rotate interact : Int) (s : SimState) : SimState :=
  { s with actionBuf := fun i =>
      if i = worldIdx * numAgents + agentIdx then
        ⟨moveAmount, moveAngle, rotate, interact⟩
      else s.actionBuf i }

/-- Manager::setSaveCheckpoint (mgr.cpp 730): writes
CheckpointSave { value } verbatim into world `worldIdx`'s slot. -/
def setSaveCheckpoint (worldIdx : Nat) (value : Int) (s : SimState) : SimState :=
  { s with saveBuf := fun i => if i = worldIdx then value else s.saveBuf i }

/-- Manager::triggerLoadCheckpoint (mgr.cpp 748): writes
CheckpointReset { 1 } into world `worldIdx`'s slot; it takes no value
argument. -/
def triggerLoadCheckpoint (worldIdx : Nat) (s : SimState) : SimState :=
  { s with loadBuf := fun i => if i = worldIdx then 1 else s.loadBuf i }

/-- Manager::step (mgr.cpp 525): one synchronous `run()` pass; touches
no control buffer from the Manager side. -/
def step (s : SimState) : SimState :=
  { s with stepCount := s.stepCount + 1 }

/-- The Manager's public mutating operations (mgr.cpp). -/
inductive ApiOp where
  | step
  | triggerReset (worldIdx : Nat)
  | setAction (worldIdx agentIdx : Nat)
      (moveAmount moveAngle rotate interact : Int)
  | setSaveCheckpoint (worldIdx : Nat) (value : Int)
  | triggerLoadCheckpoint (worldIdx : Nat)
deriving DecidableEq, Repr

def applyOp (numAgents : Nat) : ApiOp → SimState → SimState
  | .step, s => step s
  | .triggerReset w, s => triggerReset w s
  | .setAction w a ma mA r it, s => setAction numAgents w a ma mA r it s
  | .setSaveCheckpoint w v, s => setSaveCheckpoint w v s
  | .triggerLoadCheckpoint w, s => triggerLoadCheckpoint w s

/-- The reset loop of the Manager constructor (mgr.cpp 516-518):
triggerReset(i) for i = 0 .. numWorlds-1. -/
def resetAllWorlds (numWorlds : Nat) (s : SimState) : SimState :=
  (List.range numWorlds).foldl (fun s w => triggerReset w s) s

/-- Manager::Manager (mgr.cpp 503-521) after Impl::init has produced
the backend and the buffer state `s`: trigger a reset on every world,
then perform one step. -/
def managerConstruct (numWorlds : Nat) (s : SimState) : SimState :=
  step (resetAllWorlds numWorlds s)

/-- A concrete all-zero buffer state, used to instantiate theorems. -/
def initState : SimState :=
  { resetBuf := fun _ => 0
    saveBuf := fun _ => 0
    loadBuf := fun _ => 0
    actionBuf := fun _ => ⟨0, 0, 0, 0⟩
    stepCount := 0 }

/-! ### Physics-asset loading and backend initialization
(mgr.cpp lines 225-357 and 359-501)

`loadPhysicsObjects` imports the collision meshes, processes them into
a rigid-body catalog, then zeroes the x and y components of the agent
object's inverse rotational inertia before handing the catalog to the
physics loader.  `FATAL(...)` aborts the process; abortion is embedded
as `Except.error`.  The results of the external import and hull
processing steps enter as boolean outcomes, the raw catalog they
produce as a function from object kind to metadata; inertia and
friction values are modelled as rationals since the code only assigns
them, never computes with them. -/

/-- Object kinds, from the SimObject enum in src/sim.hpp. -/
inductive SimObject where
  | Cube
  | Wall
  | Door
  | Agent
  | Button
  | Key
  | Plane
deriving DecidableEq, Repr

structure Vector3 where
  x : Rat
  y : Rat
  z : Rat
deriving DecidableEq, Repr

structure RigidBodyMassData where
  invMass : Rat
  invInertiaTensor : Vector3
deriving DecidableEq, Repr

structure RigidBodyFrictionData where
  muS : Rat
  muD : Rat
deriving DecidableEq, Repr

structure RigidBodyMetadata where
  mass : RigidBodyMassData
  friction : RigidBodyFrictionData
deriving DecidableEq, Repr

/-- Outcomes of the two fallible external asset-processing steps inside
loadPhysicsObjects: `importFromDisk` (mgr.cpp 248) and
`processRigidBodyAssets` returning non-null (mgr.cpp 335). -/
structure AssetEnv where
  importOk : Bool
  hullOk : Bool
deriving DecidableEq, Repr

/-- The post-processing step of loadPhysicsObjects (mgr.cpp 347-354):
zero the x and y components of the agent entry's inverse inertia
tensor, leaving its z component and every other entry untouched. -/
def zeroAgentInertiaXY (metadatas : SimObject → RigidBodyMetadata) :
    SimObject → RigidBodyMetadata :=
  fun o =>
    if o = SimObject.Agent then
      let md := metadatas SimObject.Agent
      { md with mass := { md.mass with invInertiaTensor :=
          { md.mass.invInertiaTensor with x := 0, y := 0 } } }
    else metadatas o

/-- loadPhysicsObjects (mgr.cpp 225-357): FATAL on import failure, FATAL
on null rigid-body data, otherwise the catalog handed to
`loader.loadRigidBodies` is the processed catalog with the agent's
inverse inertia x/y zeroed. -/
def loadPhysicsObjects (env : AssetEnv)
    (rawMetadatas : SimObject → RigidBodyMetadata) :
    Except String (SimObject → RigidBodyMetadata) :=
  if !env.importOk then
    Except.error "asset import failed"
  else if !env.hullOk then
    Except.error "Invalid collision hull input"
  else
    Except.ok (zeroAgentInertiaXY rawMetadatas)

/-- Compile-time and configuration facts Manager::Impl::init branches
on: whether CUDA support was compiled in, and the asset outcomes. -/
structure InitEnv where
  cudaSupport : Bool
  assets : AssetEnv
deriving DecidableEq, Repr

/-- The two backend implementations init can construct. -/
inductive Backend where
  | cpu
  | cuda
deriving DecidableEq, Repr

/-- Manager::Impl::init (mgr.cpp 359-501).  The backend selector is the
numeric value of the ExecMode enum (CPU = 0, CUDA = 1); any other value
reaches the `default: MADRONA_UNREACHABLE()` case.  The CUDA case
without compiled-in support is `FATAL("Madrona was not compiled with
CUDA support")`.  The successful return value is the (never null)
backend pointer, embedded as `Option Backend`. -/
def managerImplInit (execMode : Nat) (env : InitEnv)
    (rawMetadatas : SimObject → RigidBodyMetadata) :
    Except String (Option Backend) :=
  if execMode = 1 then
    if env.cudaSupport then
      match loadPhysicsObjects env.assets rawMetadatas with
      | Except.error msg => Except.error msg
      | Except.ok _ => Except.ok (some Backend.cuda)
    else
      Except.error "Madrona was not compiled with CUDA support"
  else if execMode = 0 then
    match loadPhysicsObjects env.assets rawMetadatas with
    | Except.error msg => Except.error msg
    | Except.ok _ => Except.ok (some Backend.cpu)
  else
    Except.error "unreachable backend selector"

/-! ### GPU rollout pipeline (mgr.cpp lines 150-212)

`gpuRollout` receives a flat array of caller buffer pointers and a
TrainInterface descriptor and enqueues, on the caller's stream, the
device-to-device copies and the asynchronous step launch.  The
embedding records the enqueued operation sequence; a caller buffer is
identified by its flat index into the `buffers` array.  In the source,
`input_buffers = buffers` and
`output_buffers = buffers + numObs + numStats + 4 (+1 with policy
assignments)`, and one running index `cur_idx` is used for both phases
without being reset, so `output_buffers[k]` is flat index
`outputBase + k`. -/

structure NamedTensor where
  name : String
  hdl : TensorSpec
deriving DecidableEq, Repr

/-- The training-interface descriptor consumed by gpuRollout: named
observation and statistic tensors, an optional policy-assignments
tensor, and the action/reward/done/reset tensors. -/
structure TrainInterface where
  observations : List NamedTensor
  stats : List NamedTensor
  policyAssignments : Option TensorSpec
  actions : TensorSpec
  rewards : TensorSpec
  dones : TensorSpec
  resets : TensorSpec
deriving DecidableEq, Repr

/-- An operation enqueued on the rollout stream: a copy from a caller
buffer (by flat index) into a simulation tensor, the asynchronous step
launch, or a copy from a simulation tensor out to a caller buffer.
Each copy records its byte count. -/
inductive RolloutOp where
  | copyToSim (dst : TensorSpec) (srcIdx : Nat) (numBytes : Nat)
  | stepLaunch
  | copyFromSim (dstIdx : Nat) (src : TensorSpec) (numBytes : Nat)
deriving DecidableEq, Repr

/-- The `numTensorBytes` lambda (mgr.cpp 153-161): product of the
tensor's declared dimensions times its element width in bytes. -/
def numTensorBytes (t : TensorSpec) : Nat :=
  (t.dims.foldl (fun acc d => acc * d) 1) * t.ty.numBytesPerItem

/-- The `copyToSim` lambda (mgr.cpp 163-168): the byte count comes from
the destination (simulation-side) tensor; the caller buffer contributes
only its pointer. -/
def copyToSimOp (dst : TensorSpec) (srcIdx : Nat) : RolloutOp :=
  RolloutOp.copyToSim dst srcIdx (numTensorBytes dst)

/-- The `copyFromSim` lambda (mgr.cpp 170-175): the byte count comes
from the source (simulation-side) tensor. -/
def copyFromSimOp (dstIdx : Nat) (src : TensorSpec) : RolloutOp :=
  RolloutOp.copyFromSim dstIdx src (numTensorBytes src)

/-- One output copy per tensor of `ts`, written to consecutive
`output_buffers` slots starting at `start` (the running `cur_idx`),
i.e. flat indices `base + start`, `base + start + 1`, ... -/
def copyOutBlock (base start : Nat) (ts : List TensorSpec) : List RolloutOp :=
  (List.enumFrom start ts).map (fun p => copyFromSimOp (base + p.1) p.2)

/-- Manager::CUDAImpl::gpuRollout (mgr.cpp 150-212).  `cur_idx` starts
at 0, the two input copies advance it to 2, and it keeps running
through the output phase: rewards goes to `output_buffers[2]`, dones to
`output_buffers[3]`, then the optional policy-assignments copy and the
observation and statistic blocks in declared order. -/
def gpuRollout (iface : TrainInterface) : List RolloutOp :=
  let outputBase :=
    iface.observations.length + iface.stats.length + 4 +
      (if iface.policyAssignments.isSome then 1 else 0)
  let inputOps :=
    [copyToSimOp iface.actions 0, copyToSimOp iface.resets 1]
  let idxAfterInputs := 2
  let fixedOutputs :=
    [copyFromSimOp (outputBase + idxAfterInputs) iface.rewards,
     copyFromSimOp (outputBase + idxAfterInputs + 1) iface.dones]
  let policyOps :=
    match iface.policyAssignments with
    | some pa => [copyFromSimOp (outputBase + idxAfterInputs + 2) pa]
    | none => []
  let obsStart := idxAfterInputs + 2 + policyOps.length
  let obsOps :=
    copyOutBlock outputBase obsStart (iface.observations.map NamedTensor.hdl)
  let statsOps :=
    copyOutBlock outputBase (obsStart + iface.observations.length)
      (iface.stats.map NamedTensor.hdl)
  inputOps ++ [RolloutOp.stepLaunch] ++ fixedOutputs ++ policyOps ++
    obsOps ++ statsOps

/-- Projection of a rollout operation onto which simulation tensor it
moves and in which direction, forgetting buffer indices and sizes. -/
inductive OpSummary where
  | toSim (t : TensorSpec)
  | launch
  | fromSim (t : TensorSpec)
deriving DecidableEq, Repr

def opSummary : RolloutOp → OpSummary
  | .copyToSim t _ _ => OpSummary.toSim t
  | .stepLaunch => OpSummary.launch
  | .copyFromSim _ t _ => OpSummary.fromSim t

/-- Does this operation's byte count equal the byte count computed from
its simulation-side tensor's declared shape and element width?
(Vacuously true for the launch.) -/
def copySizeFromSimTensor : RolloutOp → Bool
  | .copyToSim t _ nb => nb == numTensorBytes t
  | .stepLaunch => true
  | .copyFromSim _ t nb => nb == numTensorBytes t

/-- Manager::trainInterface (mgr.cpp 665-683): seven named observation
tensors in source order, no statistic tensors, no policy assignments. -/
def trainInterface (numWorlds numAgents selfObsFloats maxObsPerAgent
    numLidarSamples : Nat) : TrainInterface :=
  { observations :=
      [⟨"self", selfObservationTensor numWorlds numAgents selfObsFloats⟩,
       ⟨"partners", partnerObservationsTensor numWorlds numAgents⟩,
       ⟨"roomEntities",
        roomEntityObservationsTensor numWorlds numAgents maxObsPerAgent⟩,
       ⟨"door", doorObservationTensor numWorlds numAgents⟩,
       ⟨"lidar", lidarTensor numWorlds numAgents numLidarSamples⟩,
       ⟨"stepsRemaining", stepsRemainingTensor numWorlds numAgents⟩,
       ⟨"agentID", agentIDTensor numWorlds numAgents⟩],
    stats := [],
    policyAssignments := none,
    actions := actionTensor numWorlds numAgents,
    rewards := rewardTensor numWorlds numAgents,
    dones := doneTensor numWorlds numAgents,
    resets := resetTensor numWorlds }

/-! ### Helper lemmas -/

theorem resetBuf_foldl (l : List Nat) (s : SimState) (i : Nat) :
    (l.foldl (fun s w => triggerReset w s) s).resetBuf i =
      if i ∈ l then 1 else s.resetBuf i := by
  induction l generalizing s with
  | nil => simp
  | cons w l ih =>
    rw [List.foldl_cons, ih]
    by_cases h1 : i ∈ l
    · simp [h1]
    · by_cases h2 : i = w <;> simp [h1, h2, triggerReset]

theorem stepCount_foldl (l : List Nat) (s : SimState) :
    (l.foldl (fun s w => triggerReset w s) s).stepCount = s.stepCount := by
  induction l generalizing s with
  | nil => rfl
  | cons w l ih => rw [List.foldl_cons, ih]; rfl

/-! ### Claim theorems -/

/-- Claim C1: after backend initialization, the Manager constructor
triggers a reset (writes WorldReset flag 1) on every world index in
[0, numWorlds), and then performs exactly one step before returning:
the state handed to that single step has every world's reset flag set
to 1, and the completed-pass counter advances by exactly one. -/
theorem constructor_resets_all_then_steps_once
    (numWorlds : Nat) (s0 : SimState) (i : Nat) (hi : i < numWorlds) :
    (resetAllWorlds numWorlds s0).resetBuf i = 1 ∧
    managerConstruct numWorlds s0 = step (resetAllWorlds numWorlds s0) ∧
    (managerConstruct numWorlds s0).stepCount = s0.stepCount + 1 := by
  refine ⟨?_, rfl, ?_⟩
  · rw [resetAllWorlds, resetBuf_foldl]
    simp [List.mem_range.mpr hi]
  · simp [managerConstruct, step, resetAllWorlds, stepCount_foldl]

theorem constructor_resets_all_then_steps_once_witness :
    2 < 5 ∧
    ((resetAllWorlds 5 initState).resetBuf 2 = 1 ∧
      managerConstruct 5 initState = step (resetAllWorlds 5 initState) ∧
      (managerConstruct 5 initState).stepCount = initState.stepCount + 1) :=
  ⟨by decide, constructor_resets_all_then_steps_once 5 initState 2 (by decide)⟩

/-- Claim C3 counterexample: the checkpoint tensor accessor
(mgr.cpp 546-553) declares element type UInt8, whose width is one
byte, not four — so not every Manager accessor returns a 32-bit
element type. -/
theorem checkpoint_tensor_not_32bit :
    (checkpointTensor 4 1260).ty = ElementType.UInt8 ∧
    ElementType.numBytesPerItem (checkpointTensor 4 1260).ty = 1 ∧
    ElementType.numBytesPerItem (checkpointTensor 4 1260).ty ≠ 4 :=
  ⟨rfl, rfl, by decide⟩

/-- Claim C3 (amended): every Manager tensor accessor except the
checkpoint accessor returns a 32-bit element type (Int32 or Float32);
the checkpoint accessor returns the 8-bit type UInt8.  The element
type of each accessor is one fixed constant, independent of every
configuration parameter, hence the same on every call for the
Manager's lifetime. -/
theorem accessor_element_types_fixed
    (numWorlds numAgents checkpointNumBytes selfObsFloats
      maxObsPerAgent numLidarSamples : Nat) :
    ((managerTensors numWorlds numAgents checkpointNumBytes selfObsFloats
        maxObsPerAgent numLidarSamples).map TensorSpec.ty =
      [ElementType.Int32, ElementType.UInt8, ElementType.Int32,
       ElementType.Int32, ElementType.Float32, ElementType.Int32,
       ElementType.Float32, ElementType.Float32, ElementType.Float32,
       ElementType.Float32, ElementType.Float32, ElementType.Int32,
       ElementType.Int32]) ∧
    (∀ t ∈ managerTensors numWorlds numAgents checkpointNumBytes
        selfObsFloats maxObsPerAgent numLidarSamples,
      t.slot ≠ ExportID.Checkpoint → ElementType.numBytesPerItem t.ty = 4) ∧
    (∀ t ∈ managerTensors numWorlds numAgents checkpointNumBytes
        selfObsFloats maxObsPerAgent numLidarSamples,
      t.slot = ExportID.Checkpoint →
        t.ty = ElementType.UInt8 ∧ ElementType.numBytesPerItem t.ty = 1) := by
  refine ⟨rfl, ?_, ?_⟩ <;>
  · intro t ht h
    simp only [managerTensors, checkpointResetTensor, checkpointTensor,
      resetTensor, actionTensor, rewardTensor, doneTensor,
      selfObservationTensor, partnerObservationsTensor,
      roomEntityObservationsTensor, doorObservationTensor, lidarTensor,
      stepsRemainingTensor, agentIDTensor, List.mem_cons,
      List.not_mem_nil, or_false] at ht
    rcases ht with rfl | rfl | rfl | rfl | rfl | rfl | rfl | rfl | rfl |
      rfl | rfl | rfl | rfl <;> simp_all [ElementType.numBytesPerItem]

theorem accessor_element_types_fixed_witness :
    ((managerTensors 4 2 1260 8 9 30).map TensorSpec.ty =
      [ElementType.Int32, ElementType.UInt8, ElementType.Int32,
       ElementType.Int32, ElementType.Float32, ElementType.Int32,
       ElementType.Float32, ElementType.Float32, ElementType.Float32,
       ElementType.Float32, ElementType.Float32, ElementType.Int32,
       ElementType.Int32]) ∧
    ElementType.numBytesPerItem (rewardTensor 4 2).ty = 4 ∧
    (checkpointTensor 4 1260).ty = ElementType.UInt8 := by
  have h := accessor_element_types_fixed 4 2 1260 8 9 30
  exact ⟨h.1, h.2.1 (rewardTensor 4 2) (by decide) (by decide),
    (h.2.2 (checkpointTensor 4 1260) (by decide) rfl).1⟩

/-- Claim C4: the action tensor accessor declares shape
[numWorlds * numAgents, 4], the reward tensor accessor
[numWorlds * numAgents, 1], and the partner-observation tensor
accessor [numWorlds * numAgents, numAgents - 1, 3]; each is a pure
function of the fixed configuration, hence identical on every call. -/
theorem accessor_shapes
    (numWorlds numAgents : Nat) :
    (actionTensor numWorlds numAgents).dims = [numWorlds * numAgents, 4] ∧
    (rewardTensor numWorlds numAgents).dims = [numWorlds * numAgents, 1] ∧
    (partnerObservationsTensor numWorlds numAgents).dims =
      [numWorlds * numAgents, numAgents - 1, 3] :=
  ⟨rfl, rfl, rfl⟩

/-- Claim C5: setAction writes exactly the record
(moveAmount, moveAngle, rotate, interact) into the action buffer at
flat index worldIdx * numAgents + agentIdx, leaves every other action
slot unchanged, and leaves the reset, checkpoint-save and
checkpoint-load buffers (and the pass counter) untouched. -/
theorem setAction_writes_one_slot
    (numWorlds numAgents worldIdx agentIdx : Nat)
    (_hw : worldIdx < numWorlds) (_ha : agentIdx < numAgents)
    (moveAmount moveAngle rotate interact : Int) (s : SimState) :
    (setAction numAgents worldIdx agentIdx moveAmount moveAngle rotate
        interact s).actionBuf (worldIdx * numAgents + agentIdx) =
      ⟨moveAmount, moveAngle, rotate, interact⟩ ∧
    (∀ idx, idx ≠ worldIdx * numAgents + agentIdx →
      (setAction numAgents worldIdx agentIdx moveAmount moveAngle rotate
          interact s).actionBuf idx = s.actionBuf idx) ∧
    (setAction numAgents worldIdx agentIdx moveAmount moveAngle rotate
        interact s).resetBuf = s.resetBuf ∧
    (setAction numAgents worldIdx agentIdx moveAmount moveAngle rotate
        interact s).saveBuf = s.saveBuf ∧
    (setAction numAgents worldIdx agentIdx moveAmount moveAngle rotate
        interact s).loadBuf = s.loadBuf ∧
    (setAction numAgents worldIdx agentIdx moveAmount moveAngle rotate
        interact s).stepCount = s.stepCount :=
  ⟨by simp [setAction], fun idx h => by simp [setAction, h],
    rfl, rfl, rfl, rfl⟩

theorem setAction_writes_one_slot_witness :
    1 < 4 ∧ 0 < 2 ∧
    (setAction 2 1 0 3 1 2 1 initState).actionBuf 2 = ⟨3, 1, 2, 1⟩ ∧
    (setAction 2 1 0 3 1 2 1 initState).actionBuf 0 = initState.actionBuf 0 ∧
    (setAction 2 1 0 3 1 2 1 initState).loadBuf = initState.loadBuf := by
  have h := setAction_writes_one_slot 4 2 1 0 (by decide) (by decide)
    3 1 2 1 initState
  exact ⟨by decide, by decide, h.1, h.2.1 0 (by decide), h.2.2.2.2.1⟩

/-- A concrete rigid-body catalog, used to instantiate theorems. -/
def sampleCatalog : SimObject → RigidBodyMetadata :=
  fun _ =>
    { mass := { invMass := 1, invInertiaTensor := ⟨2, 3, 4⟩ },
      friction := { muS := 1/2, muD := 3/4 } }

/-- Claim C7: Manager::Impl::init either yields a fully constructed
backend or aborts fatally; it never yields a null backend and never a
recoverable error.  Requesting CUDA without compiled-in support, an
asset import failure, a null rigid-body processing result, and an
out-of-range backend selector each abort. -/
theorem init_fatal_or_backend (execMode : Nat) (env : InitEnv)
    (rawMetadatas : SimObject → RigidBodyMetadata) :
    (managerImplInit execMode env rawMetadatas ≠ Except.ok none) ∧
    ((∃ b, managerImplInit execMode env rawMetadatas = Except.ok (some b)) ∨
      (∃ msg, managerImplInit execMode env rawMetadatas = Except.error msg)) ∧
    (execMode = 1 → env.cudaSupport = false →
      ∃ msg, managerImplInit execMode env rawMetadatas = Except.error msg) ∧
    (env.assets.importOk = false →
      ∃ msg, managerImplInit execMode env rawMetadatas = Except.error msg) ∧
    (env.assets.hullOk = false →
      ∃ msg, managerImplInit execMode env rawMetadatas = Except.error msg) ∧
    (2 ≤ execMode →
      ∃ msg, managerImplInit execMode env rawMetadatas = Except.error msg) := by
  unfold managerImplInit loadPhysicsObjects
  by_cases h1 : execMode = 1 <;> by_cases h0 : execMode = 0 <;>
    cases hc : env.cudaSupport <;> cases hi : env.assets.importOk <;>
    cases hh : env.assets.hullOk <;> simp_all

theorem init_fatal_or_backend_witness :
    (managerImplInit 1 ⟨false, ⟨false, false⟩⟩ sampleCatalog ≠
      Except.ok none) ∧
    (∃ msg, managerImplInit 1 ⟨false, ⟨false, false⟩⟩ sampleCatalog =
      Except.error msg) ∧
    (∃ msg, managerImplInit 7 ⟨true, ⟨true, true⟩⟩ sampleCatalog =
      Except.error msg) ∧
    (∃ b, managerImplInit 0 ⟨true, ⟨true, true⟩⟩ sampleCatalog =
      Except.ok (some b)) := by
  have h1 := init_fatal_or_backend 1 ⟨false, ⟨false, false⟩⟩ sampleCatalog
  have h7 := init_fatal_or_backend 7 ⟨true, ⟨true, true⟩⟩ sampleCatalog
  exact ⟨h1.1, h1.2.2.1 rfl rfl, h7.2.2.2.2.2 (by decide),
    Backend.cpu, rfl⟩

/-- Claim C8: when asset import and hull processing succeed, the
catalog handed to the physics loader is the processed catalog with
exactly the x and y components of the agent entry's inverse rotational
inertia zeroed; the agent's z component, its inverse mass and friction,
and every other object's metadata are unchanged. -/
theorem agent_inertia_zeroed_xy (env : AssetEnv)
    (rawMetadatas : SimObject → RigidBodyMetadata)
    (o : SimObject) (ho : o ≠ SimObject.Agent)
    (henv : env.importOk = true) (hhull : env.hullOk = true) :
    loadPhysicsObjects env rawMetadatas =
      Except.ok (zeroAgentInertiaXY rawMetadatas) ∧
    (zeroAgentInertiaXY rawMetadatas SimObject.Agent).mass.invInertiaTensor.x
      = 0 ∧
    (zeroAgentInertiaXY rawMetadatas SimObject.Agent).mass.invInertiaTensor.y
      = 0 ∧
    (zeroAgentInertiaXY rawMetadatas SimObject.Agent).mass.invInertiaTensor.z
      = (rawMetadatas SimObject.Agent).mass.invInertiaTensor.z ∧
    (zeroAgentInertiaXY rawMetadatas SimObject.Agent).mass.invMass
      = (rawMetadatas SimObject.Agent).mass.invMass ∧
    (zeroAgentInertiaXY rawMetadatas SimObject.Agent).friction
      = (rawMetadatas SimObject.Agent).friction ∧
    zeroAgentInertiaXY rawMetadatas o = rawMetadatas o := by
  refine ⟨?_, ?_, ?_, ?_, ?_, ?_, ?_⟩ <;>
    simp [loadPhysicsObjects, zeroAgentInertiaXY, henv, hhull, ho]

theorem agent_inertia_zeroed_xy_witness :
    SimObject.Cube ≠ SimObject.Agent ∧
    (zeroAgentInertiaXY sampleCatalog SimObject.Agent).mass.invInertiaTensor.x
      = 0 ∧
    (zeroAgentInertiaXY sampleCatalog SimObject.Agent).mass.invInertiaTensor.z
      = (sampleCatalog SimObject.Agent).mass.invInertiaTensor.z ∧
    zeroAgentInertiaXY sampleCatalog SimObject.Cube =
      sampleCatalog SimObject.Cube := by
  have h := agent_inertia_zeroed_xy ⟨true, true⟩ sampleCatalog
    SimObject.Cube (by decide) rfl rfl
  exact ⟨by decide, h.2.1, h.2.2.2.1, h.2.2.2.2.2.2⟩

/-- Claim C10: triggerLoadCheckpoint unconditionally writes 1 into the
world's CheckpointReset slot; no operation of the Manager's public API
can take a CheckpointReset slot that holds 1 back to 0 before the next
step (each operation either leaves a slot unchanged or writes 1); by
contrast setSaveCheckpoint writes the caller's value verbatim, so
passing 0 disarms a pending save. -/
theorem load_checkpoint_cannot_disarm (numAgents : Nat) (s : SimState)
    (worldIdx armedIdx : Nat) (value : Int)
    (h : s.loadBuf armedIdx = 1) :
    (triggerLoadCheckpoint worldIdx s).loadBuf worldIdx = 1 ∧
    (∀ op : ApiOp, (applyOp numAgents op s).loadBuf armedIdx = 1) ∧
    (∀ op : ApiOp, ∀ s' : SimState, ∀ u : Nat,
      (applyOp numAgents op s').loadBuf u = s'.loadBuf u ∨
      (applyOp numAgents op s').loadBuf u = 1) ∧
    (setSaveCheckpoint worldIdx value s).saveBuf worldIdx = value ∧
    (setSaveCheckpoint worldIdx 0 s).saveBuf worldIdx = 0 := by
  refine ⟨by simp [triggerLoadCheckpoint], ?_, ?_,
    by simp [setSaveCheckpoint], by simp [setSaveCheckpoint]⟩
  · intro op
    cases op with
    | step => simpa [applyOp, step] using h
    | triggerReset w => simpa [applyOp, triggerReset] using h
    | setAction w a ma mA r it => simpa [applyOp, setAction] using h
    | setSaveCheckpoint w v => simpa [applyOp, setSaveCheckpoint] using h
    | triggerLoadCheckpoint w =>
      simp only [applyOp, triggerLoadCheckpoint]
      by_cases hu : armedIdx = w <;> simp [hu, h]
  · intro op s' u
    cases op with
    | step => left; rfl
    | triggerReset w => left; rfl
    | setAction w a ma mA r it => left; rfl
    | setSaveCheckpoint w v => left; rfl
    | triggerLoadCheckpoint w =>
      simp only [applyOp, triggerLoadCheckpoint]
      by_cases hu : u = w
      · right; simp [hu]
      · left; simp [hu]

theorem load_checkpoint_cannot_disarm_witness :
    (triggerLoadCheckpoint 3 initState).loadBuf 3 = 1 ∧
    (triggerLoadCheckpoint 0 (triggerLoadCheckpoint 3 initState)).loadBuf 0
      = 1 ∧
    (applyOp 2 (ApiOp.triggerReset 1)
      (triggerLoadCheckpoint 3 initState)).loadBuf 3 = 1 ∧
    ((applyOp 2 ApiOp.step (triggerLoadCheckpoint 3 initState)).loadBuf 0 =
        (triggerLoadCheckpoint 3 initState).loadBuf 0 ∨
      (applyOp 2 ApiOp.step (triggerLoadCheckpoint 3 initState)).loadBuf 0
        = 1) ∧
    (setSaveCheckpoint 0 5 (triggerLoadCheckpoint 3 initState)).saveBuf 0
      = 5 ∧
    (setSaveCheckpoint 0 0 (triggerLoadCheckpoint 3 initState)).saveBuf 0
      = 0 := by
  have h0 : (triggerLoadCheckpoint 3 initState).loadBuf 3 = 1 := by decide
  have h := load_checkpoint_cannot_disarm 2
    (triggerLoadCheckpoint 3 initState) 0 3 5 h0
  exact ⟨h0, h.1, h.2.1 (ApiOp.triggerReset 1),
    h.2.2.1 ApiOp.step (triggerLoadCheckpoint 3 initState) 0,
    h.2.2.2.1, h.2.2.2.2⟩

theorem copyOutBlock_nil (base start : Nat) : copyOutBlock base start [] = [] :=
  rfl

theorem copyOutBlock_cons (base start : Nat) (t : TensorSpec)
    (ts : List TensorSpec) :
    copyOutBlock base start (t :: ts) =
      copyFromSimOp (base + start) t :: copyOutBlock base (start + 1) ts :=
  rfl

theorem copyOutBlock_map_opSummary (base : Nat) (ts : List TensorSpec) :
    ∀ start, (copyOutBlock base start ts).map opSummary =
      ts.map OpSummary.fromSim := by
  induction ts with
  | nil => intro start; rfl
  | cons t ts ih =>
    intro start
    rw [copyOutBlock_cons, List.map_cons, ih, List.map_cons]
    rfl

theorem copyOutBlock_all_sizes (base : Nat) (ts : List TensorSpec) :
    ∀ start, (copyOutBlock base start ts).all copySizeFromSimTensor = true := by
  induction ts with
  | nil => intro start; rfl
  | cons t ts ih =>
    intro start
    rw [copyOutBlock_cons, List.all_cons, ih]
    simp [copyFromSimOp, copySizeFromSimTensor]

theorem copyOutBlock_mem_le (base : Nat) (ts : List TensorSpec) :
    ∀ start j t nb, RolloutOp.copyFromSim j t nb ∈ copyOutBlock base start ts →
      base + start ≤ j := by
  induction ts with
  | nil => intro start j t nb h; simp [copyOutBlock_nil] at h
  | cons t' ts ih =>
    intro start j t nb h
    rw [copyOutBlock_cons] at h
    rcases List.mem_cons.mp h with h1 | h2
    · simp only [copyFromSimOp, RolloutOp.copyFromSim.injEq] at h1
      omega
    · have := ih (start + 1) j t nb h2
      omega

/-- Claim C2: the GPU rollout enqueues, in this exact order and
nothing else: the action input copy, the reset input copy, the
asynchronous step launch, the rewards output copy, the dones output
copy, the policy-assignments output copy exactly when the descriptor
carries one, one output copy per named observation tensor in declared
order, and one output copy per named statistic tensor in declared
order. -/
theorem rollout_op_order (iface : TrainInterface) :
    (gpuRollout iface).map opSummary =
      [OpSummary.toSim iface.actions, OpSummary.toSim iface.resets,
       OpSummary.launch, OpSummary.fromSim iface.rewards,
       OpSummary.fromSim iface.dones] ++
      (match iface.policyAssignments with
        | some pa => [OpSummary.fromSim pa]
        | none => []) ++
      iface.observations.map (fun t => OpSummary.fromSim t.hdl) ++
      iface.stats.map (fun t => OpSummary.fromSim t.hdl) := by
  cases hp : iface.policyAssignments <;>
    simp [gpuRollout, hp, copyOutBlock_map_opSummary, opSummary,
      copyToSimOp, copyFromSimOp, List.map_map, Function.comp_def]

/-- Claim C6: every copy enqueued by the GPU rollout carries a byte
count equal to the product of its simulation-side tensor's declared
dimensions times that tensor's element width in bytes
(`numTensorBytes`); the caller-supplied buffers enter only as
pointers (flat indices here), never as a size. -/
theorem rollout_copy_sizes (iface : TrainInterface) :
    (gpuRollout iface).all copySizeFromSimTensor = true := by
  cases hp : iface.policyAssignments <;>
    simp [gpuRollout, hp, List.all_append, copyOutBlock_all_sizes,
      copyToSimOp, copyFromSimOp, copySizeFromSimTensor]

/-- Claim C9: the running buffer index is not reset between the input
and output phases: the first five enqueued operations are the two
input copies from flat buffers 0 and 1, the step launch, the rewards
copy to flat buffer outputBase + 2 (i.e. output_buffers[2]) and the
dones copy to outputBase + 3, where outputBase = numObservations +
numStats + 4 (+1 with policy assignments); every output copy goes to
flat index at least outputBase + 2, so output_buffers[0] and
output_buffers[1] are never written. -/
theorem rollout_output_offset (iface : TrainInterface) :
    ((gpuRollout iface).take 5 =
      [copyToSimOp iface.actions 0, copyToSimOp iface.resets 1,
       RolloutOp.stepLaunch,
       copyFromSimOp
         (iface.observations.length + iface.stats.length + 4 +
           (if iface.policyAssignments.isSome then 1 else 0) + 2)
         iface.rewards,
       copyFromSimOp
         (iface.observations.length + iface.stats.length + 4 +
           (if iface.policyAssignments.isSome then 1 else 0) + 3)
         iface.dones]) ∧
    (∀ j t nb, RolloutOp.copyFromSim j t nb ∈ gpuRollout iface →
      iface.observations.length + iface.stats.length + 4 +
        (if iface.policyAssignments.isSome then 1 else 0) + 2 ≤ j) := by
  constructor
  · cases hp : iface.policyAssignments <;>
      simp [gpuRollout, hp, copyFromSimOp]
  · intro j t nb h
    cases hp : iface.policyAssignments with
    | none =>
      simp [gpuRollout, hp, copyToSimOp, copyFromSimOp] at h
      simp only [Option.isSome_none, Bool.false_eq_true, if_false]
      rcases h with ⟨rfl, -, -⟩ | ⟨rfl, -, -⟩ | h | h
      · omega
      · omega
      · have := copyOutBlock_mem_le _ _ _ j t nb h; omega
      · have := copyOutBlock_mem_le _ _ _ j t nb h; omega
    | some pa =>
      simp [gpuRollout, hp, copyToSimOp, copyFromSimOp] at h
      simp only [Option.isSome_some, if_true]
      rcases h with ⟨rfl, -, -⟩ | ⟨rfl, -, -⟩ | ⟨rfl, -, -⟩ | h | h
      · omega
      · omega
      · omega
      · have := copyOutBlock_mem_le _ _ _ j t nb h; omega
      · have := copyOutBlock_mem_le _ _ _ j t nb h; omega

theorem rollout_output_offset_witness :
    ((gpuRollout (trainInterface 4 2 8 9 30)).take 5 =
      [copyToSimOp (actionTensor 4 2) 0, copyToSimOp (resetTensor 4) 1,
       RolloutOp.stepLaunch, copyFromSimOp 13 (rewardTensor 4 2),
       copyFromSimOp 14 (doneTensor 4 2)]) ∧
    (11 : Nat) + 2 ≤ 13 := by
  have h := rollout_output_offset (trainInterface 4 2 8 9 30)
  exact ⟨h.1,
    h.2 13 (rewardTensor 4 2) (numTensorBytes (rewardTensor 4 2))
      (by decide)⟩

end MadEscape
